import Mathlib

/-!
Shallow embedding of the credential-pool / retry subsystem of
`src/helper.py` (class `GoogleAPIKeyManager` and the resilient wrappers
`get_embeddings`, `get_llm`, `get_conversational_chain`, `generate_quiz`).

Modelling conventions:
* A key slot is `Option String`: `os.getenv` yields `None` for a missing
  environment variable, which Python stores in the `keys` list.
* Python's `set` of strings is modelled as a `List String` with
  membership-guarded insertion (`addKey`).
* Timestamps (`time.time()`) are naturals; `now - last_rotation_time` uses
  truncated subtraction, which agrees with the float comparison for
  monotone clocks.
* The unbounded `while True` loop of `rotate_key` is run with fuel
  `keys.length`, which is exactly the number of steps after which the scan
  reaches `original_index` again and the loop returns.
* External provider calls (`embed_query`, `llm.invoke`, chain assembly)
  are parametrised by an environment behaviour `Nat → String → CallOutcome`
  giving the outcome of each numbered underlying attempt.
-/

/-- State of the `GoogleAPIKeyManager` class (src/helper.py lines 21-70).
`keys` holds the three `os.getenv` results of `__init__`. -/
structure GoogleAPIKeyManager where
  keys : List (Option String)
  current_key_index : Nat
  failed_keys : List String
  quota_exceeded_keys : List String
  last_rotation_time : Nat
  rotation_cooldown : Nat
  deriving DecidableEq

/-- `GoogleAPIKeyManager.__init__` (lines 23-33): three environment slots,
index 0, empty failure sets, `last_rotation_time = 0`, cooldown 60 s. -/
def initKeyManager (e1 e2 e3 : Option String) : GoogleAPIKeyManager :=
  { keys := [e1, e2, e3]
    current_key_index := 0
    failed_keys := []
    quota_exceeded_keys := []
    last_rotation_time := 0
    rotation_cooldown := 60 }

/-- `get_current_key` (lines 35-39): `None` for an empty pool, else
`keys[current_key_index]` (itself possibly `None` for a missing env var). -/
def get_current_key (s : GoogleAPIKeyManager) : Option String :=
  if s.keys.isEmpty then none
  else s.keys.getD s.current_key_index none

/-- The eligibility test of the rotation loop (lines 54-55):
`keys[i] not in failed_keys and keys[i] not in quota_exceeded_keys`.
A `None` slot is a member of neither string set, hence eligible. -/
def eligibleSlot (failed quota : List String) : Option String → Bool
  | none => true
  | some k => decide (k ∉ failed) && decide (k ∉ quota)

/-- Eligibility of position `p` of the pool. -/
def eligAt (s : GoogleAPIKeyManager) (p : Nat) : Bool :=
  eligibleSlot s.failed_keys s.quota_exceeded_keys (s.keys.getD p none)

/-- The `while True` scan of `rotate_key` (lines 49-58), fuelled: advance
`current_key_index` cyclically; stop with `none` on returning to
`original_index`, or with the first eligible position. -/
def rotateScan (s : GoogleAPIKeyManager) (orig : Nat) : Nat → Nat → Option Nat
  | 0, _ => none
  | fuel+1, idx =>
    if (idx + 1) % s.keys.length = orig then none
    else if eligAt s ((idx + 1) % s.keys.length) then some ((idx + 1) % s.keys.length)
    else rotateScan s orig fuel ((idx + 1) % s.keys.length)

/-- `rotate_key` (lines 41-58): refuse inside the cooldown window, else scan
for the next eligible key; on success set `current_key_index` and
`last_rotation_time`, on exhaustion return `False` with the state intact
(the loop wrote `current_key_index` back to `original_index`). -/
def rotate_key (s : GoogleAPIKeyManager) (now : Nat) : Bool × GoogleAPIKeyManager :=
  if now - s.last_rotation_time < s.rotation_cooldown then (false, s)
  else
    match rotateScan s s.current_key_index s.keys.length s.current_key_index with
    | none => (false, s)
    | some j => (true, { s with current_key_index := j, last_rotation_time := now })

/-- `set.add` on the string sets: insert unless already present. -/
def addKey (k : String) (l : List String) : List String :=
  if k ∈ l then l else k :: l

/-- Control flow of one `mark_failed` call: `completed rotated` when the
call ran to completion, the flag recording whether the `rotate_key` side
effect was invoked, or `indexError` when the call raised `IndexError`
from the logging expression `key[-6]` of the non-quota branch. -/
inductive MarkFlow where
  | completed (rotated : Bool) : MarkFlow
  | indexError : MarkFlow
  deriving DecidableEq

/-- `mark_failed` (lines 60-70), instrumented with the call's control
flow.  The quota branch records the key in `quota_exceeded_keys` and logs
the slice `key[-6:]`, safe for any length; the non-quota branch records
the key in `failed_keys` and then logs the single character `key[-6]`
(line 67), which raises `IndexError` when the key has fewer than 6
characters — the insertion has already happened, and the call aborts
before the `key == self.get_current_key()` check.  A completed call
invokes `rotate_key` iff the marked key equals `get_current_key()`. -/
def mark_failed_traced (s : GoogleAPIKeyManager) (key : String)
    (is_quota_error : Bool) (now : Nat) : GoogleAPIKeyManager × MarkFlow :=
  if is_quota_error then
    let s1 := { s with quota_exceeded_keys := addKey key s.quota_exceeded_keys }
    if get_current_key s1 = some key then ((rotate_key s1 now).2, .completed true)
    else (s1, .completed false)
  else
    let s1 := { s with failed_keys := addKey key s.failed_keys }
    if key.length < 6 then (s1, .indexError)
    else if get_current_key s1 = some key then ((rotate_key s1 now).2, .completed true)
    else (s1, .completed false)

/-- `mark_failed` (lines 60-70): the state component of the traced
version — the mutations that persist, whether the call completed or
raised `IndexError` (the insertion precedes the raise). -/
def mark_failed (s : GoogleAPIKeyManager) (key : String)
    (is_quota_error : Bool) (now : Nat) : GoogleAPIKeyManager :=
  (mark_failed_traced s key is_quota_error now).1

/-- One observable pool operation, for stating the index invariant over
arbitrary call sequences. -/
inductive PoolOp where
  | getCurrent : PoolOp
  | rotate (now : Nat) : PoolOp
  | markFailed (key : String) (is_quota_error : Bool) (now : Nat) : PoolOp

/-- Effect of one pool operation on the manager state (`get_current_key`
has no side effect). -/
def applyOp (s : GoogleAPIKeyManager) : PoolOp → GoogleAPIKeyManager
  | .getCurrent => s
  | .rotate now => (rotate_key s now).2
  | .markFailed k b now => mark_failed s k b now

/-- Effect of a sequence of pool operations. -/
def applyOps (s : GoogleAPIKeyManager) : List PoolOp → GoogleAPIKeyManager
  | [] => s
  | op :: ops => applyOps (applyOp s op) ops

/-- Outcome of one underlying provider call (construct the client and probe
it with a trivial request): success, `google_exceptions.ResourceExhausted`,
or any other exception. -/
inductive CallOutcome where
  | ok : CallOutcome
  | quotaError : CallOutcome
  | otherError : CallOutcome
  deriving DecidableEq

/-- Terminal errors a resilient wrapper can propagate to its caller. -/
inductive OpError where
  | noCredentials : OpError
  | quotaExhausted : OpError
  | providerFailure : OpError
  deriving DecidableEq

/-- Result of a resilient wrapper call. -/
inductive RunResult where
  | ok : RunResult
  | err (e : OpError) : RunResult
  deriving DecidableEq

/-- Record of one underlying attempt of a wrapper: the pool state when the
attempt started, the credential obtained from the pool in step 1, and the
`google_api_key` argument passed to the provider constructor (`none` when
the source omits the argument). -/
structure AttemptInfo where
  stateBefore : GoogleAPIKeyManager
  obtainedKey : String
  constructorKeyArg : Option String
  deriving DecidableEq

/-- `get_llm` (lines 118-144): check `not current_key`, construct
`ChatGoogleGenerativeAI(google_api_key=current_key, ...)` and probe it with
`llm.invoke("test")`; on `ResourceExhausted` mark the key as quota error,
on any other exception mark it failed; in both cases recurse with
`max_retries - 1` when `max_retries > 0`, else re-raise.  Returns the
outcome, the final pool state and the list of attempts performed. -/
def get_llm_run (behavior : Nat → String → CallOutcome) (clock : Nat → Nat) :
    Nat → Nat → GoogleAPIKeyManager → RunResult × GoogleAPIKeyManager × List AttemptInfo
  | max_retries, attempt, s =>
    match get_current_key s with
    | none => (.err .noCredentials, s, [])
    | some k =>
      if k = "" then (.err .noCredentials, s, [])
      else
        match behavior attempt k with
        | .ok => (.ok, s, [⟨s, k, some k⟩])
        | .quotaError =>
          let s1 := mark_failed s k true (clock attempt)
          match max_retries with
          | m + 1 =>
            let r := get_llm_run behavior clock m (attempt + 1) s1
            (r.1, r.2.1, ⟨s, k, some k⟩ :: r.2.2)
          | 0 => (.err .quotaExhausted, s1, [⟨s, k, some k⟩])
        | .otherError =>
          let s1 := mark_failed s k false (clock attempt)
          match max_retries with
          | m + 1 =>
            let r := get_llm_run behavior clock m (attempt + 1) s1
            (r.1, r.2.1, ⟨s, k, some k⟩ :: r.2.2)
          | 0 => (.err .providerFailure, s1, [⟨s, k, some k⟩])

/-- `get_embeddings` (lines 93-111), fuelled because the source recursion
is unbounded: check `not current_key`, construct
`GoogleGenerativeAIEmbeddings(model=...)` — the source passes NO
`google_api_key` argument, hence `constructorKeyArg := none` — probe with
`embed_query("test")`; on any failure mark the key and recurse
unconditionally (there is no `max_retries` parameter).  `none` means the
fuel ran out with the recursion still going. -/
def get_embeddings_run (behavior : Nat → String → CallOutcome) (clock : Nat → Nat) :
    Nat → Nat → GoogleAPIKeyManager →
      Option (RunResult × GoogleAPIKeyManager × List AttemptInfo)
  | 0, _, _ => none
  | fuel + 1, attempt, s =>
    match get_current_key s with
    | none => some (.err .noCredentials, s, [])
    | some k =>
      if k = "" then some (.err .noCredentials, s, [])
      else
        match behavior attempt k with
        | .ok => some (.ok, s, [⟨s, k, none⟩])
        | .quotaError =>
          match get_embeddings_run behavior clock fuel (attempt + 1)
              (mark_failed s k true (clock attempt)) with
          | none => none
          | some r => some (r.1, r.2.1, ⟨s, k, none⟩ :: r.2.2)
        | .otherError =>
          match get_embeddings_run behavior clock fuel (attempt + 1)
              (mark_failed s k false (clock attempt)) with
          | none => none
          | some r => some (r.1, r.2.1, ⟨s, k, none⟩ :: r.2.2)

/-- `generate_quiz` (lines 162-172): call `get_llm` (with its default
budget 3), then `llm.invoke(prompt)` whose outcome is `invokeB`; any
exception — including the ones `get_llm` propagates — is caught by
`except Exception` and retried while `max_retries > 0`, else re-raised.
The final `Nat` counts the `get_llm` invocations performed. -/
def generate_quiz_run (behavior : Nat → String → CallOutcome)
    (invokeB : Nat → CallOutcome) (clock : Nat → Nat) :
    Nat → Nat → GoogleAPIKeyManager → RunResult × GoogleAPIKeyManager × Nat
  | max_retries, attempt, s =>
    let r := get_llm_run behavior clock 3 attempt s
    match r.1 with
    | .ok =>
      match invokeB attempt with
      | .ok => (.ok, r.2.1, 1)
      | .quotaError =>
        match max_retries with
        | m + 1 =>
          let r2 := generate_quiz_run behavior invokeB clock m (attempt + r.2.2.length + 1) r.2.1
          (r2.1, r2.2.1, r2.2.2 + 1)
        | 0 => (.err .quotaExhausted, r.2.1, 1)
      | .otherError =>
        match max_retries with
        | m + 1 =>
          let r2 := generate_quiz_run behavior invokeB clock m (attempt + r.2.2.length + 1) r.2.1
          (r2.1, r2.2.1, r2.2.2 + 1)
        | 0 => (.err .providerFailure, r.2.1, 1)
    | .err e =>
      match max_retries with
      | m + 1 =>
        let r2 := generate_quiz_run behavior invokeB clock m (attempt + r.2.2.length) r.2.1
        (r2.1, r2.2.1, r2.2.2 + 1)
      | 0 => (.err e, r.2.1, 1)

/-- `get_conversational_chain` (lines 146-160): call `get_llm` (default
budget 3), then assemble memory and chain, whose outcome is `chainB`; any
exception is caught by `except Exception` and retried while
`max_retries > 0`, else re-raised.  The final `Nat` counts the `get_llm`
invocations performed. -/
def get_conversational_chain_run (behavior : Nat → String → CallOutcome)
    (chainB : Nat → CallOutcome) (clock : Nat → Nat) :
    Nat → Nat → GoogleAPIKeyManager → RunResult × GoogleAPIKeyManager × Nat
  | max_retries, attempt, s =>
    let r := get_llm_run behavior clock 3 attempt s
    match r.1 with
    | .ok =>
      match chainB attempt with
      | .ok => (.ok, r.2.1, 1)
      | .quotaError =>
        match max_retries with
        | m + 1 =>
          let r2 := get_conversational_chain_run behavior chainB clock m
            (attempt + r.2.2.length + 1) r.2.1
          (r2.1, r2.2.1, r2.2.2 + 1)
        | 0 => (.err .quotaExhausted, r.2.1, 1)
      | .otherError =>
        match max_retries with
        | m + 1 =>
          let r2 := get_conversational_chain_run behavior chainB clock m
            (attempt + r.2.2.length + 1) r.2.1
          (r2.1, r2.2.1, r2.2.2 + 1)
        | 0 => (.err .providerFailure, r.2.1, 1)
    | .err e =>
      match max_retries with
      | m + 1 =>
        let r2 := get_conversational_chain_run behavior chainB clock m
          (attempt + r.2.2.length) r.2.1
        (r2.1, r2.2.1, r2.2.2 + 1)
      | 0 => (.err e, r.2.1, 1)

/-- A provider environment in which every underlying call raises
`ResourceExhausted`. -/
def alwaysQuota : Nat → String → CallOutcome := fun _ _ => .quotaError

/-- A provider environment in which every underlying call succeeds. -/
def alwaysOk : Nat → String → CallOutcome := fun _ _ => .ok

/-- A clock frozen at time 0. -/
def zeroClock : Nat → Nat := fun _ => 0

/-- Number of cyclic steps from position `i` until the scan would reach
position `orig` again (for `i, orig < n` this is the least `t ≥ 1` with
`(i + t) % n = orig`). -/
def distTo (n orig i : Nat) : Nat :=
  if i < orig then orig - i else n + orig - i

/-- A single-key pool whose only credential has been marked failed, used as
a concrete exhausted pool. -/
def exhaustedPool : GoogleAPIKeyManager :=
  { keys := [some "K1"]
    current_key_index := 0
    failed_keys := ["K1"]
    quota_exceeded_keys := []
    last_rotation_time := 0
    rotation_cooldown := 0 }

/-- The fixpoint the pool reaches when `get_embeddings` keeps failing with
quota errors at time 0 on the fresh `[K1, K2, K3]` pool: `K1` is marked,
but the rotation requested by `mark_failed` is refused by the cooldown
(`0 - 0 < 60`), so the pool stays on `K1` forever. -/
def quotaStuckPool : GoogleAPIKeyManager :=
  { keys := [some "K1", some "K2", some "K3"]
    current_key_index := 0
    failed_keys := []
    quota_exceeded_keys := ["K1"]
    last_rotation_time := 0
    rotation_cooldown := 60 }

/-- A pool state reached after `K1` failed and the manager rotated to `K2`:
`get_current_key()` returns `K2`. -/
def rotatedPool : GoogleAPIKeyManager :=
  { keys := [some "K1", some "K2", some "K3"]
    current_key_index := 1
    failed_keys := ["K1"]
    quota_exceeded_keys := []
    last_rotation_time := 60
    rotation_cooldown := 60 }

/-! ### Characterisation of the rotation scan -/

theorem distTo_pos (n orig i : Nat) (hi : i < n) : 1 ≤ distTo n orig i := by
  unfold distTo; split <;> omega

theorem distTo_self (n orig : Nat) (h : orig < n) : distTo n orig orig = n := by
  unfold distTo; split <;> omega

theorem succ_mod_eq (n i : Nat) (hi : i < n) :
    (i + 1) % n = if i + 1 = n then 0 else i + 1 := by
  split
  · simp_all
  · exact Nat.mod_eq_of_lt (by omega)

theorem distTo_step (n orig i : Nat) (hi : i < n) (ho : orig < n)
    (hne : (i + 1) % n ≠ orig) :
    distTo n orig ((i + 1) % n) + 1 = distTo n orig i := by
  rw [succ_mod_eq n i hi] at hne ⊢
  by_cases hin : i + 1 = n
  · simp only [if_pos hin] at hne ⊢
    unfold distTo; split <;> split <;> omega
  · simp only [if_neg hin] at hne ⊢
    unfold distTo; split <;> split <;> omega

theorem distTo_one (n orig i : Nat) (hi : i < n) (ho : orig < n)
    (heq : (i + 1) % n = orig) : distTo n orig i = 1 := by
  rw [succ_mod_eq n i hi] at heq
  by_cases hin : i + 1 = n
  · simp only [if_pos hin] at heq
    unfold distTo; split <;> omega
  · simp only [if_neg hin] at heq
    unfold distTo; split <;> omega

theorem rotateScan_some_char (s : GoogleAPIKeyManager) (orig : Nat)
    (ho : orig < s.keys.length) :
    ∀ (fuel i j : Nat), i < s.keys.length → rotateScan s orig fuel i = some j →
      ∃ t, 1 ≤ t ∧ t ≤ fuel ∧ t < distTo s.keys.length orig i ∧
        j = (i + t) % s.keys.length ∧ eligAt s j = true ∧
        ∀ t', 1 ≤ t' → t' < t → eligAt s ((i + t') % s.keys.length) = false := by
  intro fuel
  induction fuel with
  | zero => intro i j _ h; simp [rotateScan] at h
  | succ f ih =>
    intro i j hi h
    have hn : 0 < s.keys.length := by omega
    have hnext : (i + 1) % s.keys.length < s.keys.length := Nat.mod_lt _ hn
    rw [rotateScan] at h
    by_cases h1 : (i + 1) % s.keys.length = orig
    · simp [h1] at h
    · rw [if_neg h1] at h
      by_cases h2 : eligAt s ((i + 1) % s.keys.length) = true
      · rw [if_pos h2] at h
        refine ⟨1, le_refl 1, by omega, ?_, ?_, ?_, ?_⟩
        · have := distTo_step s.keys.length orig i hi ho h1
          have := distTo_pos s.keys.length orig ((i + 1) % s.keys.length) hnext
          omega
        · exact (Option.some.injEq _ _ ▸ h).symm
        · cases h; exact h2
        · intro t' ht1 ht2; omega
      · rw [if_neg h2] at h
        obtain ⟨t1, ht1, ht1f, ht1d, hj, helig, hmin⟩ :=
          ih ((i + 1) % s.keys.length) j hnext h
        refine ⟨t1 + 1, by omega, by omega, ?_, ?_, helig, ?_⟩
        · have := distTo_step s.keys.length orig i hi ho h1
          omega
        · rw [hj, Nat.mod_add_mod]
          congr 1; omega
        · intro t' h1' h2'
          rcases Nat.lt_or_ge t' 2 with hlt | hge
          · have : t' = 1 := by omega
            subst this
            simpa using h2
          · have hrw : i + t' = (i + 1) + (t' - 1) := by omega
            rw [hrw, ← Nat.mod_add_mod]
            exact hmin (t' - 1) (by omega) (by omega)

theorem rotateScan_none_char (s : GoogleAPIKeyManager) (orig : Nat)
    (ho : orig < s.keys.length) :
    ∀ (fuel i : Nat), i < s.keys.length → rotateScan s orig fuel i = none →
      ∀ t, 1 ≤ t → t ≤ fuel → t < distTo s.keys.length orig i →
        eligAt s ((i + t) % s.keys.length) = false := by
  intro fuel
  induction fuel with
  | zero => intro i _ _ t ht1 ht2 _; omega
  | succ f ih =>
    intro i hi h t ht1 htf htd
    have hn : 0 < s.keys.length := by omega
    have hnext : (i + 1) % s.keys.length < s.keys.length := Nat.mod_lt _ hn
    rw [rotateScan] at h
    by_cases h1 : (i + 1) % s.keys.length = orig
    · have := distTo_one s.keys.length orig i hi ho h1
      omega
    · rw [if_neg h1] at h
      by_cases h2 : eligAt s ((i + 1) % s.keys.length) = true
      · simp [h2] at h
      · rw [if_neg h2] at h
        rcases Nat.lt_or_ge t 2 with hlt | hge
        · have : t = 1 := by omega
          subst this
          simpa using h2
        · have hd := distTo_step s.keys.length orig i hi ho h1
          have hrw : i + t = (i + 1) + (t - 1) := by omega
          rw [hrw, ← Nat.mod_add_mod]
          exact ih ((i + 1) % s.keys.length) hnext h (t - 1) (by omega) (by omega) (by omega)

theorem rotateScan_complete (s : GoogleAPIKeyManager)
    (ho : s.current_key_index < s.keys.length)
    (hex : ∃ p, p < s.keys.length ∧ p ≠ s.current_key_index ∧ eligAt s p = true) :
    ∃ j, rotateScan s s.current_key_index s.keys.length s.current_key_index = some j := by
  obtain ⟨p, hp, hpo, hpe⟩ := hex
  cases hscan : rotateScan s s.current_key_index s.keys.length s.current_key_index with
  | some j => exact ⟨j, rfl⟩
  | none =>
    exfalso
    have hnone := rotateScan_none_char s s.current_key_index ho s.keys.length
      s.current_key_index ho hscan
    have hdist := distTo_self s.keys.length s.current_key_index ho
    rcases Nat.lt_or_ge s.current_key_index p with hop | hop
    · have hmod : (s.current_key_index + (p - s.current_key_index)) % s.keys.length = p := by
        have h1 : s.current_key_index + (p - s.current_key_index) = p := by omega
        rw [h1]; exact Nat.mod_eq_of_lt hp
      have := hnone (p - s.current_key_index) (by omega) (by omega) (by omega)
      rw [hmod] at this
      simp [hpe] at this
    · have hpo' : p < s.current_key_index := by omega
      have hmod : (s.current_key_index + (s.keys.length + p - s.current_key_index))
          % s.keys.length = p := by
        have h1 : s.current_key_index + (s.keys.length + p - s.current_key_index)
            = s.keys.length + p := by omega
        rw [h1, Nat.add_mod_left]
        exact Nat.mod_eq_of_lt hp
      have := hnone (s.keys.length + p - s.current_key_index) (by omega) (by omega) (by omega)
      rw [hmod] at this
      simp [hpe] at this

theorem isEmpty_false_of_pos (l : List (Option String)) (h : 0 < l.length) :
    l.isEmpty = false := by
  cases l with
  | nil => simp at h
  | cons a t => rfl

theorem getD_mem_of_lt (l : List (Option String)) (p : Nat) (h : p < l.length) :
    l.getD p none ∈ l := by
  rw [List.getD_eq_getElem l none h]
  exact List.getElem_mem h

theorem mem_addKey_iff (k x : String) (l : List String) :
    x ∈ addKey k l ↔ (x = k ∨ x ∈ l) := by
  unfold addKey
  split <;> simp_all [List.mem_cons]

theorem self_mem_addKey (k : String) (l : List String) : k ∈ addKey k l :=
  (mem_addKey_iff k k l).2 (Or.inl rfl)

theorem eligAt_true_iff (s : GoogleAPIKeyManager) (p : Nat) :
    eligAt s p = true ↔
      ∀ m, s.keys.getD p none = some m →
        m ∉ s.failed_keys ∧ m ∉ s.quota_exceeded_keys := by
  unfold eligAt eligibleSlot
  cases h : s.keys.getD p none <;> simp

theorem rotate_key_cases (s : GoogleAPIKeyManager) (now : Nat) :
    (now - s.last_rotation_time < s.rotation_cooldown ∧ rotate_key s now = (false, s)) ∨
    (¬ (now - s.last_rotation_time < s.rotation_cooldown) ∧
      rotateScan s s.current_key_index s.keys.length s.current_key_index = none ∧
      rotate_key s now = (false, s)) ∨
    (∃ j, ¬ (now - s.last_rotation_time < s.rotation_cooldown) ∧
      rotateScan s s.current_key_index s.keys.length s.current_key_index = some j ∧
      rotate_key s now =
        (true, { s with current_key_index := j, last_rotation_time := now })) := by
  unfold rotate_key
  by_cases hc : now - s.last_rotation_time < s.rotation_cooldown
  · exact Or.inl ⟨hc, by rw [if_pos hc]⟩
  · rw [if_neg hc]
    cases hscan : rotateScan s s.current_key_index s.keys.length s.current_key_index with
    | none => exact Or.inr (Or.inl ⟨hc, rfl, rfl⟩)
    | some j => exact Or.inr (Or.inr ⟨j, hc, rfl, rfl⟩)

/-! ### Frame lemmas for `rotate_key` and `mark_failed` -/

theorem rotate_key_frame (s : GoogleAPIKeyManager) (now : Nat) :
    ((rotate_key s now).2).keys = s.keys ∧
    ((rotate_key s now).2).failed_keys = s.failed_keys ∧
    ((rotate_key s now).2).quota_exceeded_keys = s.quota_exceeded_keys ∧
    ((rotate_key s now).2).rotation_cooldown = s.rotation_cooldown := by
  rcases rotate_key_cases s now with ⟨_, h⟩ | ⟨_, _, h⟩ | ⟨j, _, _, h⟩ <;>
    rw [h] <;> exact ⟨rfl, rfl, rfl, rfl⟩

theorem rotate_key_success_shape (s : GoogleAPIKeyManager) (now : Nat)
    (h : (rotate_key s now).1 = true) :
    ∃ j, rotateScan s s.current_key_index s.keys.length s.current_key_index = some j ∧
      (rotate_key s now).2 =
        { s with current_key_index := j, last_rotation_time := now } := by
  rcases rotate_key_cases s now with ⟨_, heq⟩ | ⟨_, _, heq⟩ | ⟨j, _, hscan, heq⟩
  · rw [heq] at h; simp at h
  · rw [heq] at h; simp at h
  · exact ⟨j, hscan, by rw [heq]⟩

theorem rotate_key_idx_lt (s : GoogleAPIKeyManager) (now : Nat)
    (h : s.current_key_index < s.keys.length) :
    ((rotate_key s now).2).current_key_index < ((rotate_key s now).2).keys.length := by
  rcases rotate_key_cases s now with ⟨_, heq⟩ | ⟨_, _, heq⟩ | ⟨j, _, hscan, heq⟩
  · rw [heq]; exact h
  · rw [heq]; exact h
  · rw [heq]
    obtain ⟨t, _, _, _, hj, _, _⟩ :=
      rotateScan_some_char s s.current_key_index h s.keys.length s.current_key_index j h hscan
    have hn : 0 < s.keys.length := by omega
    simpa [hj] using Nat.mod_lt _ hn

theorem mark_failed_keys_eq (s : GoogleAPIKeyManager) (k : String) (b : Bool) (now : Nat) :
    (mark_failed s k b now).keys = s.keys := by
  unfold mark_failed mark_failed_traced
  cases b
  · simp only [Bool.false_eq_true, if_false]
    split
    · rfl
    · split
      · exact (rotate_key_frame _ now).1
      · rfl
  · simp only [if_true]
    split
    · exact (rotate_key_frame _ now).1
    · rfl

theorem mark_failed_idx_lt (s : GoogleAPIKeyManager) (k : String) (b : Bool) (now : Nat)
    (h : s.current_key_index < s.keys.length) :
    (mark_failed s k b now).current_key_index < (mark_failed s k b now).keys.length := by
  unfold mark_failed mark_failed_traced
  cases b
  · simp only [Bool.false_eq_true, if_false]
    split
    · exact h
    · split
      · exact rotate_key_idx_lt _ now h
      · exact h
  · simp only [if_true]
    split
    · exact rotate_key_idx_lt _ now h
    · exact h

/-! ### Claim theorems: credential pool -/

/-- Claim C3: a successful `rotate_key` sets `current_key_index` to a
position whose credential is in neither `failed_keys` nor
`quota_exceeded_keys`, found by the cyclic forward scan starting from the
position after `current_key_index` (all strictly earlier scan positions
are ineligible), and it updates `last_rotation_time` to the call time. -/
theorem rotate_success_selects_eligible (s : GoogleAPIKeyManager) (now : Nat)
    (hidx : s.current_key_index < s.keys.length)
    (hsucc : (rotate_key s now).1 = true) :
    (∀ m, s.keys.getD ((rotate_key s now).2).current_key_index none = some m →
        m ∉ s.failed_keys ∧ m ∉ s.quota_exceeded_keys) ∧
    ((rotate_key s now).2).last_rotation_time = now ∧
    ∃ d, 1 ≤ d ∧ d < s.keys.length ∧
      ((rotate_key s now).2).current_key_index
        = (s.current_key_index + d) % s.keys.length ∧
      ∀ d', 1 ≤ d' → d' < d →
        eligAt s ((s.current_key_index + d') % s.keys.length) = false := by
  obtain ⟨j, hscan, heq⟩ := rotate_key_success_shape s now hsucc
  obtain ⟨t, ht1, htf, htd, hj, helig, hmin⟩ :=
    rotateScan_some_char s s.current_key_index hidx s.keys.length
      s.current_key_index j hidx hscan
  rw [heq]
  refine ⟨?_, rfl, t, ht1, ?_, hj.symm ▸ rfl, hmin⟩
  · intro m hm
    exact (eligAt_true_iff s j).1 helig m (by simpa using hm)
  · have := distTo_self s.keys.length s.current_key_index hidx
    omega

/-- Claim C3 witness: on the freshly constructed pool `[K1, K2, K3]` a
rotation at time 60 succeeds, and the selected position holds an eligible
credential, found one step after the original index. -/
theorem rotate_success_selects_eligible_witness :
    ((initKeyManager (some "K1") (some "K2") (some "K3")).current_key_index
        < (initKeyManager (some "K1") (some "K2") (some "K3")).keys.length) ∧
    ((rotate_key (initKeyManager (some "K1") (some "K2") (some "K3")) 60).1 = true) ∧
    ((∀ m, (initKeyManager (some "K1") (some "K2") (some "K3")).keys.getD
          ((rotate_key (initKeyManager (some "K1") (some "K2") (some "K3")) 60).2).current_key_index
          none = some m →
        m ∉ (initKeyManager (some "K1") (some "K2") (some "K3")).failed_keys ∧
        m ∉ (initKeyManager (some "K1") (some "K2") (some "K3")).quota_exceeded_keys) ∧
    ((rotate_key (initKeyManager (some "K1") (some "K2") (some "K3")) 60).2).last_rotation_time = 60 ∧
    ∃ d, 1 ≤ d ∧ d < (initKeyManager (some "K1") (some "K2") (some "K3")).keys.length ∧
      ((rotate_key (initKeyManager (some "K1") (some "K2") (some "K3")) 60).2).current_key_index
        = ((initKeyManager (some "K1") (some "K2") (some "K3")).current_key_index + d)
            % (initKeyManager (some "K1") (some "K2") (some "K3")).keys.length ∧
      ∀ d', 1 ≤ d' → d' < d →
        eligAt (initKeyManager (some "K1") (some "K2") (some "K3"))
          (((initKeyManager (some "K1") (some "K2") (some "K3")).current_key_index + d')
            % (initKeyManager (some "K1") (some "K2") (some "K3")).keys.length) = false) :=
  ⟨by decide, by decide,
    rotate_success_selects_eligible (initKeyManager (some "K1") (some "K2") (some "K3")) 60
      (by decide) (by decide)⟩

/-- Claim C4: when every credential of the pool is in
`failed_keys ∪ quota_exceeded_keys`, `rotate_key` returns `False` and the
state — in particular `current_key_index` — is unchanged. -/
theorem rotate_exhausted_noop (s : GoogleAPIKeyManager) (now : Nat)
    (hn : 0 < s.keys.length)
    (hall : ∀ e ∈ s.keys, ∃ k, e = some k ∧
        (k ∈ s.failed_keys ∨ k ∈ s.quota_exceeded_keys)) :
    (rotate_key s now).1 = false ∧ (rotate_key s now).2 = s ∧
    ((rotate_key s now).2).current_key_index = s.current_key_index := by
  have hbad : ∀ p, p < s.keys.length → eligAt s p = false := by
    intro p hp
    obtain ⟨k, hk, hor⟩ := hall (s.keys.getD p none) (getD_mem_of_lt s.keys p hp)
    unfold eligAt eligibleSlot
    rw [hk]
    rcases hor with h | h <;> simp [h]
  have hnone : ∀ fuel i, rotateScan s s.current_key_index fuel i = none := by
    intro fuel
    induction fuel with
    | zero => intro i; rfl
    | succ f ih =>
      intro i
      rw [rotateScan]
      by_cases h1 : (i + 1) % s.keys.length = s.current_key_index
      · simp [h1]
      · rw [if_neg h1, hbad ((i + 1) % s.keys.length) (Nat.mod_lt _ hn)]
        simpa using ih ((i + 1) % s.keys.length)
  rcases rotate_key_cases s now with ⟨_, heq⟩ | ⟨_, _, heq⟩ | ⟨j, _, hscan, _⟩
  · rw [heq]; exact ⟨rfl, rfl, rfl⟩
  · rw [heq]; exact ⟨rfl, rfl, rfl⟩
  · rw [hnone] at hscan; exact absurd hscan (by simp)

/-- Claim C4 witness: a single-key pool with its key marked failed refuses
to rotate and keeps its state. -/
theorem rotate_exhausted_noop_witness :
    (0 < exhaustedPool.keys.length) ∧
    ((rotate_key exhaustedPool 100).1 = false ∧
      (rotate_key exhaustedPool 100).2 = exhaustedPool ∧
      ((rotate_key exhaustedPool 100).2).current_key_index
        = exhaustedPool.current_key_index) :=
  ⟨by decide,
    rotate_exhausted_noop exhaustedPool 100 (by decide)
      (by
        intro e he
        simp only [exhaustedPool, List.mem_singleton] at he
        exact ⟨"K1", he, Or.inl (by decide)⟩)⟩

/-- Claim C5, as stated, is false: a rotation refused by the cooldown does
not update `last_rotation_time`, so a second `rotate_key` call less than
`rotation_cooldown` after a first (refused) call can succeed.  Concretely:
construct the pool, rotate successfully at time 60, call again at time 100
(refused, cooldown active) and at time 121 — the two calls are 21 s apart,
less than the 60 s cooldown, yet the second of the pair succeeds. -/
theorem rotate_cooldown_claim_counterexample :
    ((rotate_key (rotate_key (initKeyManager (some "K1") (some "K2") (some "K3")) 60).2
        100).1 = false) ∧
    ((rotate_key (rotate_key (rotate_key (initKeyManager (some "K1") (some "K2") (some "K3"))
        60).2 100).2 121).1 = true) ∧
    (121 - 100 <
      ((rotate_key (rotate_key (initKeyManager (some "K1") (some "K2") (some "K3")) 60).2
        100).2).rotation_cooldown) := by decide

/-- Claim C5 (amended): a `rotate_key` call made less than
`rotation_cooldown` after a *successful* rotation returns failure,
regardless of pool health; equivalently, two successful rotations never
occur within one cooldown window. -/
theorem rotate_cooldown_blocks_after_success (s : GoogleAPIKeyManager) (n1 n2 : Nat)
    (h1 : (rotate_key s n1).1 = true)
    (h2 : n2 - n1 < s.rotation_cooldown) :
    (rotate_key (rotate_key s n1).2 n2).1 = false := by
  obtain ⟨j, _, heq⟩ := rotate_key_success_shape s n1 h1
  rw [heq]
  unfold rotate_key
  rw [if_pos]
  exact h2

/-- Claim C5 (amended) witness: after the successful rotation at time 60 on
the fresh `[K1, K2, K3]` pool, a second call at time 100 (40 s later) is
refused. -/
theorem rotate_cooldown_blocks_after_success_witness :
    ((rotate_key (initKeyManager (some "K1") (some "K2") (some "K3")) 60).1 = true) ∧
    (100 - 60 < (initKeyManager (some "K1") (some "K2") (some "K3")).rotation_cooldown) ∧
    ((rotate_key (rotate_key (initKeyManager (some "K1") (some "K2") (some "K3")) 60).2
        100).1 = false) :=
  ⟨by decide, by decide,
    rotate_cooldown_blocks_after_success (initKeyManager (some "K1") (some "K2") (some "K3"))
      60 100 (by decide) (by decide)⟩

/-- `get_current_key` only reads `keys` and `current_key_index`, so adding
to either failure set leaves it unchanged. -/
theorem get_current_key_quota_update (s : GoogleAPIKeyManager) (l : List String) :
    get_current_key { s with quota_exceeded_keys := l } = get_current_key s := rfl

theorem get_current_key_failed_update (s : GoogleAPIKeyManager) (l : List String) :
    get_current_key { s with failed_keys := l } = get_current_key s := rfl

/-- Away from the `IndexError` path — the quota branch, or a key of at
least 6 characters — `mark_failed(k, b)` completes: it puts `k` into the
set selected by `b` and invokes `rotate_key` exactly when `k` equals the
credential `get_current_key()` returns at the time of the call. -/
theorem mark_failed_completed_rotates_iff (s : GoogleAPIKeyManager) (k : String)
    (b : Bool) (now : Nat) (h : b = true ∨ 6 ≤ k.length) :
    (k ∈ (if b then (mark_failed s k b now).quota_exceeded_keys
          else (mark_failed s k b now).failed_keys)) ∧
    ((mark_failed_traced s k b now).2 = .completed true ↔
      get_current_key s = some k) := by
  cases b
  · have hlen : ¬ k.length < 6 := by
      rcases h with h | h
      · exact absurd h (by simp)
      · omega
    constructor
    · simp only [mark_failed, mark_failed_traced, Bool.false_eq_true, if_false]
      rw [if_neg hlen]
      split
      · exact ((rotate_key_frame _ now).2.1).symm ▸ self_mem_addKey k s.failed_keys
      · exact self_mem_addKey k s.failed_keys
    · simp only [mark_failed_traced, Bool.false_eq_true, if_false,
        get_current_key_failed_update]
      rw [if_neg hlen]
      split
      · simpa
      · simpa
  · constructor
    · simp only [mark_failed, mark_failed_traced, if_true]
      split
      · exact ((rotate_key_frame _ now).2.2.1).symm ▸ self_mem_addKey k s.quota_exceeded_keys
      · exact self_mem_addKey k s.quota_exceeded_keys
    · simp only [mark_failed_traced, if_true, get_current_key_quota_update]
      split
      · simpa
      · simpa

/-- Claim C6 (code-bug evidence): line 67 of `helper.py` logs `key[-6]` —
an index, unlike the slice `key[-6:]` of the quota branch at line 64 —
which raises `IndexError` for keys shorter than 6 characters.  On the
fresh pool whose current credential `K1` has 2 characters,
`mark_failed("K1", is_quota_error=False)` at time 60 records the key in
`failed_keys` but aborts before the rotation check, so `rotate()` is not
invoked and the current index is unchanged even though the marked key is
current — while the same call with the quota flag (safe slice logging)
does rotate.  This falsifies the claim's "invokes rotate() iff k equals
get_current()" on the non-quota branch. -/
theorem mark_failed_short_key_skips_rotation :
    (get_current_key (initKeyManager (some "K1") (some "K2") (some "K3")) = some "K1") ∧
    ("K1".length < 6) ∧
    ((mark_failed_traced (initKeyManager (some "K1") (some "K2") (some "K3"))
        "K1" false 60).2 = .indexError) ∧
    ("K1" ∈ (mark_failed (initKeyManager (some "K1") (some "K2") (some "K3"))
        "K1" false 60).failed_keys) ∧
    ((mark_failed (initKeyManager (some "K1") (some "K2") (some "K3"))
        "K1" false 60).current_key_index
      = (initKeyManager (some "K1") (some "K2") (some "K3")).current_key_index) ∧
    ((mark_failed_traced (initKeyManager (some "K1") (some "K2") (some "K3"))
        "K1" true 60).2 = .completed true) ∧
    ((mark_failed (initKeyManager (some "K1") (some "K2") (some "K3"))
        "K1" true 60).current_key_index
      ≠ (initKeyManager (some "K1") (some "K2") (some "K3")).current_key_index) := by
  decide

/-- Claim C10: marking a key that is not the current credential records it
in the set selected by the flag and changes nothing else — no rotation is
attempted, and `current_key_index`, `last_rotation_time`, `keys` and the
other exclusion set are untouched. -/
theorem mark_failed_noncurrent_frame (s : GoogleAPIKeyManager) (k : String)
    (b : Bool) (now : Nat) (h : get_current_key s ≠ some k) :
    (mark_failed s k b now).current_key_index = s.current_key_index ∧
    (mark_failed s k b now).last_rotation_time = s.last_rotation_time ∧
    (mark_failed s k b now).keys = s.keys ∧
    (b = true → (mark_failed s k b now).quota_exceeded_keys = addKey k s.quota_exceeded_keys ∧
      k ∈ (mark_failed s k b now).quota_exceeded_keys ∧
      (mark_failed s k b now).failed_keys = s.failed_keys) ∧
    (b = false → (mark_failed s k b now).failed_keys = addKey k s.failed_keys ∧
      k ∈ (mark_failed s k b now).failed_keys ∧
      (mark_failed s k b now).quota_exceeded_keys = s.quota_exceeded_keys) ∧
    ((mark_failed_traced s k b now).2 = .completed false ∨
      (mark_failed_traced s k b now).2 = .indexError) := by
  cases b
  · by_cases hlen : k.length < 6
    · simp only [mark_failed, mark_failed_traced, Bool.false_eq_true, if_false]
      rw [if_pos hlen]
      exact ⟨rfl, rfl, rfl, by simp, fun _ => ⟨rfl, self_mem_addKey k s.failed_keys, rfl⟩,
        Or.inr rfl⟩
    · simp only [mark_failed, mark_failed_traced, Bool.false_eq_true, if_false,
        get_current_key_failed_update]
      rw [if_neg hlen, if_neg h]
      exact ⟨rfl, rfl, rfl, by simp, fun _ => ⟨rfl, self_mem_addKey k s.failed_keys, rfl⟩,
        Or.inl rfl⟩
  · simp only [mark_failed, mark_failed_traced, if_true, get_current_key_quota_update]
    rw [if_neg h]
    exact ⟨rfl, rfl, rfl, fun _ => ⟨rfl, self_mem_addKey k s.quota_exceeded_keys, rfl⟩,
      by simp, Or.inl rfl⟩

/-- Claim C10 witness: marking `K2` (not current) on the fresh pool leaves
index, timestamp, keys and the quota set unchanged and does not rotate
(here the call ends in the line-67 `IndexError`, after the insertion). -/
theorem mark_failed_noncurrent_frame_witness :
    (get_current_key (initKeyManager (some "K1") (some "K2") (some "K3")) ≠ some "K2") ∧
    ((mark_failed (initKeyManager (some "K1") (some "K2") (some "K3")) "K2" false 0).current_key_index
        = (initKeyManager (some "K1") (some "K2") (some "K3")).current_key_index ∧
      (mark_failed (initKeyManager (some "K1") (some "K2") (some "K3")) "K2" false 0).last_rotation_time
        = (initKeyManager (some "K1") (some "K2") (some "K3")).last_rotation_time ∧
      (mark_failed (initKeyManager (some "K1") (some "K2") (some "K3")) "K2" false 0).keys
        = (initKeyManager (some "K1") (some "K2") (some "K3")).keys ∧
      (false = true →
        (mark_failed (initKeyManager (some "K1") (some "K2") (some "K3")) "K2" false 0).quota_exceeded_keys
            = addKey "K2" (initKeyManager (some "K1") (some "K2") (some "K3")).quota_exceeded_keys ∧
          "K2" ∈ (mark_failed (initKeyManager (some "K1") (some "K2") (some "K3")) "K2" false 0).quota_exceeded_keys ∧
          (mark_failed (initKeyManager (some "K1") (some "K2") (some "K3")) "K2" false 0).failed_keys
            = (initKeyManager (some "K1") (some "K2") (some "K3")).failed_keys) ∧
      (false = false →
        (mark_failed (initKeyManager (some "K1") (some "K2") (some "K3")) "K2" false 0).failed_keys
            = addKey "K2" (initKeyManager (some "K1") (some "K2") (some "K3")).failed_keys ∧
          "K2" ∈ (mark_failed (initKeyManager (some "K1") (some "K2") (some "K3")) "K2" false 0).failed_keys ∧
          (mark_failed (initKeyManager (some "K1") (some "K2") (some "K3")) "K2" false 0).quota_exceeded_keys
            = (initKeyManager (some "K1") (some "K2") (some "K3")).quota_exceeded_keys) ∧
      ((mark_failed_traced (initKeyManager (some "K1") (some "K2") (some "K3")) "K2" false 0).2
          = .completed false ∨
        (mark_failed_traced (initKeyManager (some "K1") (some "K2") (some "K3")) "K2" false 0).2
          = .indexError)) :=
  ⟨by decide,
    mark_failed_noncurrent_frame (initKeyManager (some "K1") (some "K2") (some "K3"))
      "K2" false 0 (by decide)⟩

/-- Claim C7: if the pool holds an unmarked credential other than the
current one (all slots being genuine credentials), then marking the current
credential as quota-exceeded once the rotation cooldown has elapsed makes
`get_current_key()` return a different credential than before. -/
theorem mark_current_quota_changes_current (s : GoogleAPIKeyManager) (k : String)
    (now : Nat)
    (hidx : s.current_key_index < s.keys.length)
    (hWF : ∀ e ∈ s.keys, ∃ m, e = some m)
    (hcur : get_current_key s = some k)
    (hcool : s.rotation_cooldown ≤ now - s.last_rotation_time)
    (hother : ∃ m, some m ∈ s.keys ∧ m ≠ k ∧
        m ∉ s.failed_keys ∧ m ∉ s.quota_exceeded_keys) :
    ∃ m, get_current_key (mark_failed s k true now) = some m ∧ m ≠ k := by
  have hn : 0 < s.keys.length := by omega
  have hne : s.keys.isEmpty = false := isEmpty_false_of_pos s.keys hn
  have hcurD : s.keys.getD s.current_key_index none = some k := by
    unfold get_current_key at hcur
    rwa [hne, if_neg (by simp)] at hcur
  -- the state after the set update, before the rotation side effect
  set s1 : GoogleAPIKeyManager :=
    { s with quota_exceeded_keys := addKey k s.quota_exceeded_keys } with hs1
  have hmark : mark_failed s k true now = (rotate_key s1 now).2 := by
    unfold mark_failed mark_failed_traced
    simp only [if_true]
    rw [if_pos]
    show get_current_key s1 = some k
    rw [hs1, get_current_key_quota_update]
    exact hcur
  -- an eligible position distinct from the original index exists in s1
  obtain ⟨m, hmem, hmk, hmf, hmq⟩ := hother
  obtain ⟨p, hp, hpeq⟩ := List.getElem_of_mem hmem
  have hpD : s1.keys.getD p none = some m := by
    show s.keys.getD p none = some m
    rw [List.getD_eq_getElem s.keys none hp]
    exact hpeq
  have hpelig : eligAt s1 p = true := by
    unfold eligAt eligibleSlot
    rw [hpD]
    have hq1 : m ∉ addKey k s.quota_exceeded_keys := by
      rw [mem_addKey_iff]
      push_neg
      exact ⟨hmk, hmq⟩
    simp [hmf, hq1]
  have hpo : p ≠ s1.current_key_index := by
    intro hcontra
    have : s.keys.getD p none = some k := by
      rw [hcontra]; exact hcurD
    rw [hpD] at this
    exact hmk (by simpa using this)
  -- the rotation succeeds
  obtain ⟨j, hscan⟩ := rotateScan_complete s1 hidx ⟨p, hp, hpo, hpelig⟩
  rcases rotate_key_cases s1 now with ⟨hc, _⟩ | ⟨_, hnone, _⟩ | ⟨j', hc, hscan', heq⟩
  · exact absurd hc (by simp only [hs1]; omega)
  · rw [hnone] at hscan; exact absurd hscan (by simp)
  · rw [hmark, heq]
    obtain ⟨t, _, _, _, hj', helig, _⟩ :=
      rotateScan_some_char s1 s1.current_key_index hidx s.keys.length
        s1.current_key_index j' hidx hscan'
    have hj'lt : j' < s.keys.length := by
      rw [hj']; exact Nat.mod_lt _ hn
    have hjmem : s.keys.getD j' none ∈ s.keys := getD_mem_of_lt s.keys j' hj'lt
    obtain ⟨m', hm'⟩ := hWF (s.keys.getD j' none) hjmem
    refine ⟨m', ?_, ?_⟩
    · show get_current_key { s1 with current_key_index := j', last_rotation_time := now }
        = some m'
      unfold get_current_key
      rw [show ({ s1 with current_key_index := j', last_rotation_time := now
          } : GoogleAPIKeyManager).keys = s.keys from rfl]
      rw [hne, if_neg (by simp)]
      exact hm'
    · intro hcontra
      subst hcontra
      have := (eligAt_true_iff s1 j').1 helig m' (by simpa using hm')
      exact this.2 (self_mem_addKey m' s.quota_exceeded_keys)

/-- Claim C7 witness: fresh pool `[K1, K2, K3]`, mark `K1` (current) as
quota-exceeded at time 60 (cooldown elapsed): the current credential
changes. -/
theorem mark_current_quota_changes_current_witness :
    ((initKeyManager (some "K1") (some "K2") (some "K3")).current_key_index
        < (initKeyManager (some "K1") (some "K2") (some "K3")).keys.length) ∧
    (get_current_key (initKeyManager (some "K1") (some "K2") (some "K3")) = some "K1") ∧
    ((initKeyManager (some "K1") (some "K2") (some "K3")).rotation_cooldown
        ≤ 60 - (initKeyManager (some "K1") (some "K2") (some "K3")).last_rotation_time) ∧
    (∃ m, get_current_key
        (mark_failed (initKeyManager (some "K1") (some "K2") (some "K3")) "K1" true 60)
          = some m ∧ m ≠ "K1") :=
  ⟨by decide, by decide, by decide,
    mark_current_quota_changes_current (initKeyManager (some "K1") (some "K2") (some "K3"))
      "K1" 60 (by decide)
      (by
        intro e he
        simp only [initKeyManager, List.mem_cons, List.mem_singleton] at he
        rcases he with rfl | rfl | rfl | h
        · exact ⟨"K1", rfl⟩
        · exact ⟨"K2", rfl⟩
        · exact ⟨"K3", rfl⟩
        · exact absurd h (List.not_mem_nil _))
      (by decide) (by decide)
      ⟨"K2", by decide, by decide, by decide, by decide⟩⟩

/-- Claim C9: starting from a constructed pool, any sequence of
`get_current_key`, `rotate_key` and `mark_failed` calls keeps
`current_key_index` a valid position of the key sequence. -/
theorem current_index_always_valid (e1 e2 e3 : Option String) (ops : List PoolOp) :
    (applyOps (initKeyManager e1 e2 e3) ops).current_key_index
      < (applyOps (initKeyManager e1 e2 e3) ops).keys.length := by
  have step : ∀ (s : GoogleAPIKeyManager) (op : PoolOp),
      s.current_key_index < s.keys.length →
      (applyOp s op).current_key_index < (applyOp s op).keys.length := by
    intro s op h
    cases op with
    | getCurrent => exact h
    | rotate now => exact rotate_key_idx_lt s now h
    | markFailed k b now => exact mark_failed_idx_lt s k b now h
  have main : ∀ (l : List PoolOp) (s : GoogleAPIKeyManager),
      s.current_key_index < s.keys.length →
      (applyOps s l).current_key_index < (applyOps s l).keys.length := by
    intro l
    induction l with
    | nil => intro s h; exact h
    | cons op rest ih => intro s h; exact ih (applyOp s op) (step s op h)
  exact main ops (initKeyManager e1 e2 e3) (by simp [initKeyManager])

/-! ### Claim theorems: resilient wrappers -/

theorem emb_run_fix : ∀ (fuel attempt : Nat),
    get_embeddings_run alwaysQuota zeroClock fuel attempt quotaStuckPool = none := by
  intro fuel
  induction fuel with
  | zero => intro attempt; rfl
  | succ f ih =>
    intro attempt
    have hstep : get_embeddings_run alwaysQuota zeroClock (f + 1) attempt quotaStuckPool
        = match get_embeddings_run alwaysQuota zeroClock f (attempt + 1) quotaStuckPool with
          | none => none
          | some r =>
              some (r.1, r.2.1, (⟨quotaStuckPool, "K1", none⟩ : AttemptInfo) :: r.2.2) := rfl
    rw [hstep, ih (attempt + 1)]

/-- Claim C1 (code-bug evidence): `get_embeddings` has no `max_retries`
parameter and recurses unconditionally on every failure, so on the fully
populated fresh pool with every underlying call raising a quota error it
never terminates: the fuelled model exhausts every fuel value. -/
theorem get_embeddings_always_fail_diverges : ∀ (fuel attempt : Nat),
    get_embeddings_run alwaysQuota zeroClock fuel attempt
      (initKeyManager (some "K1") (some "K2") (some "K3")) = none := by
  intro fuel attempt
  cases fuel with
  | zero => rfl
  | succ f =>
    have hstep : get_embeddings_run alwaysQuota zeroClock (f + 1) attempt
          (initKeyManager (some "K1") (some "K2") (some "K3"))
        = match get_embeddings_run alwaysQuota zeroClock f (attempt + 1) quotaStuckPool with
          | none => none
          | some r =>
              some (r.1, r.2.1,
                (⟨initKeyManager (some "K1") (some "K2") (some "K3"), "K1", none⟩
                  : AttemptInfo) :: r.2.2) := rfl
    rw [hstep, emb_run_fix f (attempt + 1)]

/-- Claim C2 (code-bug evidence): in `get_embeddings` the attempt obtains
the pool's current credential (`K2` here) but constructs the provider
client with NO `google_api_key` argument (`constructorKeyArg = none`), so
the downstream call is not executed with the obtained credential. -/
theorem get_embeddings_constructor_ignores_credential :
    (get_current_key rotatedPool = some "K2") ∧
    (get_embeddings_run alwaysOk zeroClock 1 0 rotatedPool
      = some (.ok, rotatedPool, [⟨rotatedPool, "K2", none⟩])) ∧
    ((none : Option String) ≠ some "K2") := by decide

/-- Branch equations of `get_llm_run`. -/
theorem get_llm_run_none (b : Nat → String → CallOutcome) (c : Nat → Nat)
    (mr a : Nat) (s : GoogleAPIKeyManager) (h : get_current_key s = none) :
    get_llm_run b c mr a s = (.err .noCredentials, s, []) := by
  rw [get_llm_run, h]

theorem get_llm_run_empty (b : Nat → String → CallOutcome) (c : Nat → Nat)
    (mr a : Nat) (s : GoogleAPIKeyManager) (h : get_current_key s = some "") :
    get_llm_run b c mr a s = (.err .noCredentials, s, []) := by
  rw [get_llm_run, h]
  rfl

theorem get_llm_run_ok (b : Nat → String → CallOutcome) (c : Nat → Nat)
    (mr a : Nat) (s : GoogleAPIKeyManager) (k : String)
    (h : get_current_key s = some k) (h0 : ¬ k = "") (hb : b a k = .ok) :
    get_llm_run b c mr a s = (.ok, s, [⟨s, k, some k⟩]) := by
  rw [get_llm_run, h]
  simp [h0, hb]

theorem get_llm_run_quota_zero (b : Nat → String → CallOutcome) (c : Nat → Nat)
    (a : Nat) (s : GoogleAPIKeyManager) (k : String)
    (h : get_current_key s = some k) (h0 : ¬ k = "") (hb : b a k = .quotaError) :
    get_llm_run b c 0 a s
      = (.err .quotaExhausted, mark_failed s k true (c a), [⟨s, k, some k⟩]) := by
  rw [get_llm_run, h]
  simp [h0, hb]

theorem get_llm_run_quota_succ (b : Nat → String → CallOutcome) (c : Nat → Nat)
    (m a : Nat) (s : GoogleAPIKeyManager) (k : String)
    (h : get_current_key s = some k) (h0 : ¬ k = "") (hb : b a k = .quotaError) :
    get_llm_run b c (m + 1) a s
      = ((get_llm_run b c m (a + 1) (mark_failed s k true (c a))).1,
         (get_llm_run b c m (a + 1) (mark_failed s k true (c a))).2.1,
         (⟨s, k, some k⟩ : AttemptInfo)
           :: (get_llm_run b c m (a + 1) (mark_failed s k true (c a))).2.2) := by
  rw [get_llm_run, h]
  simp [h0, hb]

theorem get_llm_run_other_zero (b : Nat → String → CallOutcome) (c : Nat → Nat)
    (a : Nat) (s : GoogleAPIKeyManager) (k : String)
    (h : get_current_key s = some k) (h0 : ¬ k = "") (hb : b a k = .otherError) :
    get_llm_run b c 0 a s
      = (.err .providerFailure, mark_failed s k false (c a), [⟨s, k, some k⟩]) := by
  rw [get_llm_run, h]
  simp [h0, hb]

theorem get_llm_run_other_succ (b : Nat → String → CallOutcome) (c : Nat → Nat)
    (m a : Nat) (s : GoogleAPIKeyManager) (k : String)
    (h : get_current_key s = some k) (h0 : ¬ k = "") (hb : b a k = .otherError) :
    get_llm_run b c (m + 1) a s
      = ((get_llm_run b c m (a + 1) (mark_failed s k false (c a))).1,
         (get_llm_run b c m (a + 1) (mark_failed s k false (c a))).2.1,
         (⟨s, k, some k⟩ : AttemptInfo)
           :: (get_llm_run b c m (a + 1) (mark_failed s k false (c a))).2.2) := by
  rw [get_llm_run, h]
  simp [h0, hb]

/-- `get_llm`, in contrast, passes the credential obtained in step 1 of
each attempt as the `google_api_key` constructor argument, and that
credential is exactly the pool's current one at the start of the attempt. -/
theorem get_llm_uses_obtained_key (behavior : Nat → String → CallOutcome)
    (clock : Nat → Nat) : ∀ (mr attempt : Nat) (s : GoogleAPIKeyManager),
    ∀ info ∈ (get_llm_run behavior clock mr attempt s).2.2,
      info.constructorKeyArg = some info.obtainedKey ∧
      get_current_key info.stateBefore = some info.obtainedKey := by
  intro mr
  induction mr with
  | zero =>
    intro attempt s info hinfo
    rcases hgc : get_current_key s with _ | k
    · rw [get_llm_run_none behavior clock 0 attempt s hgc] at hinfo
      simp at hinfo
    · by_cases hk0 : k = ""
      · subst hk0
        rw [get_llm_run_empty behavior clock 0 attempt s hgc] at hinfo
        simp at hinfo
      · rcases hb : behavior attempt k with _ | _ | _
        · rw [get_llm_run_ok behavior clock 0 attempt s k hgc hk0 hb] at hinfo
          simp only [List.mem_singleton] at hinfo
          subst hinfo; exact ⟨rfl, hgc⟩
        · rw [get_llm_run_quota_zero behavior clock attempt s k hgc hk0 hb] at hinfo
          simp only [List.mem_singleton] at hinfo
          subst hinfo; exact ⟨rfl, hgc⟩
        · rw [get_llm_run_other_zero behavior clock attempt s k hgc hk0 hb] at hinfo
          simp only [List.mem_singleton] at hinfo
          subst hinfo; exact ⟨rfl, hgc⟩
  | succ m ih =>
    intro attempt s info hinfo
    rcases hgc : get_current_key s with _ | k
    · rw [get_llm_run_none behavior clock (m + 1) attempt s hgc] at hinfo
      simp at hinfo
    · by_cases hk0 : k = ""
      · subst hk0
        rw [get_llm_run_empty behavior clock (m + 1) attempt s hgc] at hinfo
        simp at hinfo
      · rcases hb : behavior attempt k with _ | _ | _
        · rw [get_llm_run_ok behavior clock (m + 1) attempt s k hgc hk0 hb] at hinfo
          simp only [List.mem_singleton] at hinfo
          subst hinfo; exact ⟨rfl, hgc⟩
        · rw [get_llm_run_quota_succ behavior clock m attempt s k hgc hk0 hb] at hinfo
          simp only [List.mem_cons] at hinfo
          rcases hinfo with rfl | hmem
          · exact ⟨rfl, hgc⟩
          · exact ih (attempt + 1) (mark_failed s k true (clock attempt)) info hmem
        · rw [get_llm_run_other_succ behavior clock m attempt s k hgc hk0 hb] at hinfo
          simp only [List.mem_cons] at hinfo
          rcases hinfo with rfl | hmem
          · exact ⟨rfl, hgc⟩
          · exact ih (attempt + 1) (mark_failed s k false (clock attempt)) info hmem

/-- `get_llm` performs at most `max_retries + 1` underlying attempts. -/
theorem get_llm_attempts_le (behavior : Nat → String → CallOutcome)
    (clock : Nat → Nat) : ∀ (mr attempt : Nat) (s : GoogleAPIKeyManager),
    (get_llm_run behavior clock mr attempt s).2.2.length ≤ mr + 1 := by
  intro mr
  induction mr with
  | zero =>
    intro attempt s
    rcases hgc : get_current_key s with _ | k
    · rw [get_llm_run_none behavior clock 0 attempt s hgc]; simp
    · by_cases hk0 : k = ""
      · subst hk0
        rw [get_llm_run_empty behavior clock 0 attempt s hgc]; simp
      · rcases hb : behavior attempt k with _ | _ | _
        · rw [get_llm_run_ok behavior clock 0 attempt s k hgc hk0 hb]; simp
        · rw [get_llm_run_quota_zero behavior clock attempt s k hgc hk0 hb]; simp
        · rw [get_llm_run_other_zero behavior clock attempt s k hgc hk0 hb]; simp
  | succ m ih =>
    intro attempt s
    rcases hgc : get_current_key s with _ | k
    · rw [get_llm_run_none behavior clock (m + 1) attempt s hgc]; simp
    · by_cases hk0 : k = ""
      · subst hk0
        rw [get_llm_run_empty behavior clock (m + 1) attempt s hgc]; simp
      · rcases hb : behavior attempt k with _ | _ | _
        · rw [get_llm_run_ok behavior clock (m + 1) attempt s k hgc hk0 hb]; simp
        · rw [get_llm_run_quota_succ behavior clock m attempt s k hgc hk0 hb]
          simpa using ih (attempt + 1) (mark_failed s k true (clock attempt))
        · rw [get_llm_run_other_succ behavior clock m attempt s k hgc hk0 hb]
          simpa using ih (attempt + 1) (mark_failed s k false (clock attempt))

/-- With budget 0 and an always-failing provider, `get_llm` performs
exactly one attempt and propagates the terminal quota failure; with the
default budget 3 it performs exactly four attempts. -/
theorem get_llm_attempt_counts_concrete :
    ((get_llm_run alwaysQuota zeroClock 0 0
        (initKeyManager (some "K1") (some "K2") (some "K3"))).2.2.length = 1) ∧
    ((get_llm_run alwaysQuota zeroClock 0 0
        (initKeyManager (some "K1") (some "K2") (some "K3"))).1 = .err .quotaExhausted) ∧
    ((get_llm_run alwaysQuota zeroClock 3 0
        (initKeyManager (some "K1") (some "K2") (some "K3"))).2.2.length = 4) ∧
    ((get_llm_run alwaysQuota zeroClock 3 0
        (initKeyManager (some "K1") (some "K2") (some "K3"))).1 = .err .quotaExhausted) := by
  decide

/-- Branch equation of `generate_quiz_run` when the inner `get_llm` raises
and the quiz budget is exhausted. -/
theorem generate_quiz_run_llm_err_zero (b : Nat → String → CallOutcome)
    (invB : Nat → CallOutcome) (c : Nat → Nat) (a : Nat)
    (s s' : GoogleAPIKeyManager) (e : OpError) (tr : List AttemptInfo)
    (h : get_llm_run b c 3 a s = (.err e, s', tr)) :
    generate_quiz_run b invB c 0 a s = (.err e, s', 1) := by
  rw [generate_quiz_run]
  simp only [h]

/-- Branch equation of `generate_quiz_run` when the inner `get_llm` raises
and quiz budget remains: the exception is caught and the call retried. -/
theorem generate_quiz_run_llm_err_succ (b : Nat → String → CallOutcome)
    (invB : Nat → CallOutcome) (c : Nat → Nat) (m a : Nat)
    (s s' : GoogleAPIKeyManager) (e : OpError) (tr : List AttemptInfo)
    (h : get_llm_run b c 3 a s = (.err e, s', tr)) :
    generate_quiz_run b invB c (m + 1) a s
      = ((generate_quiz_run b invB c m (a + tr.length) s').1,
         (generate_quiz_run b invB c m (a + tr.length) s').2.1,
         (generate_quiz_run b invB c m (a + tr.length) s').2.2 + 1) := by
  rw [generate_quiz_run]
  simp only [h]

/-- Branch equation of `get_conversational_chain_run` when the inner
`get_llm` raises and the budget is exhausted. -/
theorem chain_run_llm_err_zero (b : Nat → String → CallOutcome)
    (chB : Nat → CallOutcome) (c : Nat → Nat) (a : Nat)
    (s s' : GoogleAPIKeyManager) (e : OpError) (tr : List AttemptInfo)
    (h : get_llm_run b c 3 a s = (.err e, s', tr)) :
    get_conversational_chain_run b chB c 0 a s = (.err e, s', 1) := by
  rw [get_conversational_chain_run]
  simp only [h]

/-- Branch equation of `get_conversational_chain_run` when the inner
`get_llm` raises and budget remains: the exception is caught and retried. -/
theorem chain_run_llm_err_succ (b : Nat → String → CallOutcome)
    (chB : Nat → CallOutcome) (c : Nat → Nat) (m a : Nat)
    (s s' : GoogleAPIKeyManager) (e : OpError) (tr : List AttemptInfo)
    (h : get_llm_run b c 3 a s = (.err e, s', tr)) :
    get_conversational_chain_run b chB c (m + 1) a s
      = ((get_conversational_chain_run b chB c m (a + tr.length) s').1,
         (get_conversational_chain_run b chB c m (a + tr.length) s').2.1,
         (get_conversational_chain_run b chB c m (a + tr.length) s').2.2 + 1) := by
  rw [get_conversational_chain_run]
  simp only [h]

/-- Claim C8 counterexample: the claim says the no-credentials error is
"never caught and retried by the operation's own failure-handling
branches", for every resilient operation.  But on a pool whose slots are
all empty (`get_current_key` yields the no-credential signal),
`generate_quiz` with its default budget 3 catches the `ValueError` raised
by its inner `get_llm` via `except Exception` and retries, invoking
`get_llm` 4 times in total — not once — before propagating the error. -/
theorem quiz_retries_no_credentials_counterexample :
    (get_current_key (initKeyManager none none none) = none) ∧
    (generate_quiz_run alwaysOk (fun _ => .ok) zeroClock 3 0 (initKeyManager none none none)
      = (.err .noCredentials, initKeyManager none none none, 4)) ∧
    (4 ≠ 1) := by decide

/-- Claim C8 (amended): when `get_current_key()` yields the no-credential
signal (a `None` slot or an empty-string slot), `get_llm` and
`get_embeddings` fail immediately with the terminal no-credentials error,
performing zero underlying attempts whatever the budget, and their own
failure-handling branches do not catch it; `get_conversational_chain` and
`generate_quiz`, however, catch that error from their inner `get_llm` call
and retry it, invoking `get_llm` `max_retries + 1` times before
propagating the same terminal no-credentials error with the pool state
unchanged. -/
theorem no_credentials_outcomes (behavior : Nat → String → CallOutcome)
    (clock : Nat → Nat) (s : GoogleAPIKeyManager)
    (h : get_current_key s = none ∨ get_current_key s = some "") :
    (∀ mr attempt, get_llm_run behavior clock mr attempt s
        = (.err .noCredentials, s, [])) ∧
    (∀ fuel attempt, get_embeddings_run behavior clock (fuel + 1) attempt s
        = some (.err .noCredentials, s, [])) ∧
    (∀ (invokeB : Nat → CallOutcome) (mr attempt : Nat),
        generate_quiz_run behavior invokeB clock mr attempt s
          = (.err .noCredentials, s, mr + 1)) ∧
    (∀ (chainB : Nat → CallOutcome) (mr attempt : Nat),
        get_conversational_chain_run behavior chainB clock mr attempt s
          = (.err .noCredentials, s, mr + 1)) := by
  have hllm : ∀ mr attempt, get_llm_run behavior clock mr attempt s
      = (.err .noCredentials, s, []) := by
    intro mr attempt
    rcases h with h | h
    · exact get_llm_run_none behavior clock mr attempt s h
    · exact get_llm_run_empty behavior clock mr attempt s h
  refine ⟨hllm, ?_, ?_, ?_⟩
  · intro fuel attempt
    rcases h with h | h <;> · simp [get_embeddings_run, h]
  · intro invokeB mr
    induction mr with
    | zero =>
      intro attempt
      exact generate_quiz_run_llm_err_zero behavior invokeB clock attempt s s
        .noCredentials [] (hllm 3 attempt)
    | succ m ih =>
      intro attempt
      rw [generate_quiz_run_llm_err_succ behavior invokeB clock m attempt s s
        .noCredentials [] (hllm 3 attempt)]
      rw [ih (attempt + List.length [])]
  · intro chainB mr
    induction mr with
    | zero =>
      intro attempt
      exact chain_run_llm_err_zero behavior chainB clock attempt s s
        .noCredentials [] (hllm 3 attempt)
    | succ m ih =>
      intro attempt
      rw [chain_run_llm_err_succ behavior chainB clock m attempt s s
        .noCredentials [] (hllm 3 attempt)]
      rw [ih (attempt + List.length [])]

/-- Claim C8 (amended) witness: a pool read from an environment with none
of the three variables set yields the no-credential signal; `get_llm` with
budget 3 makes zero attempts and fails terminally, `get_embeddings`
likewise, while `generate_quiz` with budget 3 invokes `get_llm` 4 times
and `get_conversational_chain` with budget 2 invokes it 3 times, all
ending in the same terminal error. -/
theorem no_credentials_outcomes_witness :
    (get_current_key (initKeyManager none none none) = none ∨
      get_current_key (initKeyManager none none none) = some "") ∧
    (get_llm_run alwaysOk zeroClock 3 0 (initKeyManager none none none)
      = (.err .noCredentials, initKeyManager none none none, [])) ∧
    (get_embeddings_run alwaysOk zeroClock 5 0 (initKeyManager none none none)
      = some (.err .noCredentials, initKeyManager none none none, [])) ∧
    (generate_quiz_run alwaysOk (fun _ => .quotaError) zeroClock 3 0
        (initKeyManager none none none)
      = (.err .noCredentials, initKeyManager none none none, 4)) ∧
    (get_conversational_chain_run alwaysOk (fun _ => .ok) zeroClock 2 0
        (initKeyManager none none none)
      = (.err .noCredentials, initKeyManager none none none, 3)) :=
  ⟨Or.inl (by decide),
    (no_credentials_outcomes alwaysOk zeroClock (initKeyManager none none none)
      (Or.inl (by decide))).1 3 0,
    (no_credentials_outcomes alwaysOk zeroClock (initKeyManager none none none)
      (Or.inl (by decide))).2.1 4 0,
    (no_credentials_outcomes alwaysOk zeroClock (initKeyManager none none none)
      (Or.inl (by decide))).2.2.1 (fun _ => .quotaError) 3 0,
    (no_credentials_outcomes alwaysOk zeroClock (initKeyManager none none none)
      (Or.inl (by decide))).2.2.2 (fun _ => .ok) 2 0⟩
